import Mathlib

/-!
Verification development for the Airline-Backend flight price service
(`src/ml-service`). The Python code is shallowly embedded: numbers are
modelled as exact rationals (`ℚ`), Python dictionaries as association
lists, and code that can raise an exception returns `Option`/`Except`,
where `none` / `Except.error` models the raised exception.

Embedded files:
* `simple_train.py`  — `SimpleDecisionTree`, `SimpleRandomForest`, and a
  second `extract_hour` variant;
* `train_simple.py`  — `LinearRegression` (batch gradient descent) and
  `extract_hour`;
* `api_simple.py` / `api.py` — both define the identical `predict_price`,
  `encode_category` and `extract_hour`; embedded once.
-/

namespace FlightML

/-- Numeric value of a list of decimal digit characters, most significant
first (the usual base-10 reading used by Python's `int`/`float`). -/
def digitsVal (cs : List Char) : Nat :=
  cs.foldl (fun n c => 10 * n + (c.toNat - 48)) 0

/-- Strip leading and trailing whitespace, as Python's `int`/`float`
do with their string argument. -/
def trimWs (cs : List Char) : List Char :=
  ((cs.dropWhile Char.isWhitespace).reverse.dropWhile Char.isWhitespace).reverse

/-- Split a character list on a separator character; mirrors Python's
`str.split(sep)` with an explicit one-character separator (empty pieces
are kept, and the empty string yields `[[]]`). -/
def splitOnChar (sep : Char) (cs : List Char) : List (List Char) :=
  cs.foldr
    (fun c acc =>
      match acc with
      | [] => [[c]]
      | g :: gs => if c = sep then [] :: g :: gs else (c :: g) :: gs)
    [[]]

/-- Python's `int(s)` on a string: optional sign then decimal digits,
surrounding whitespace ignored; `none` models the raised `ValueError`.
(Underscore digit grouping is not modelled; no input here uses it.) -/
def pyInt (cs : List Char) : Option Int :=
  match trimWs cs with
  | '-' :: ds => if ds ≠ [] ∧ ds.all Char.isDigit then some (-(digitsVal ds : Int)) else none
  | '+' :: ds => if ds ≠ [] ∧ ds.all Char.isDigit then some ((digitsVal ds : Int)) else none
  | ds => if ds ≠ [] ∧ ds.all Char.isDigit then some ((digitsVal ds : Int)) else none

/-- Python's `float(s)` on a string: optional sign, decimal digits with at
most one point, surrounding whitespace ignored; `none` models the raised
`ValueError`. (Exponent, `inf` and `nan` forms are not modelled; no input
here uses them.) -/
def pyFloat (cs : List Char) : Option ℚ :=
  let t := trimWs cs
  let sgn : ℚ × List Char :=
    match t with
    | '-' :: r => (-1, r)
    | '+' :: r => (1, r)
    | r => (1, r)
  match splitOnChar '.' sgn.2 with
  | [a] =>
      if a ≠ [] ∧ a.all Char.isDigit then some (sgn.1 * digitsVal a) else none
  | [a, b] =>
      if (a ≠ [] ∨ b ≠ []) ∧ a.all Char.isDigit ∧ b.all Char.isDigit then
        some (sgn.1 * ((digitsVal a : ℚ) + (digitsVal b : ℚ) / (10 : ℚ) ^ b.length))
      else none
  | _ => none

/-- `time_str.replace('Z', '+00:00')`, the only use of `str.replace` in the
sources (every `extract_hour` applies it before `datetime.fromisoformat`). -/
def replaceZ (s : String) : String :=
  ⟨s.data.flatMap (fun c => if c = 'Z' then "+00:00".data else [c])⟩

/-- Value of a two-digit pair. -/
def twoVal (c1 c2 : Char) : Nat :=
  10 * (c1.toNat - 48) + (c2.toNat - 48)

/-- Tail of an ISO time after the two hour digits:
`"" | ":MM" | ":MM:SS" | ":MM:SS.fff[fff]"` with range checks, as accepted
by `datetime.fromisoformat`. -/
def validHMSF : List Char → Bool
  | [] => true
  | ':' :: m1 :: m2 :: rest =>
      m1.isDigit && m2.isDigit && twoVal m1 m2 ≤ 59 &&
        (match rest with
         | [] => true
         | ':' :: s1 :: s2 :: rest2 =>
             s1.isDigit && s2.isDigit && twoVal s1 s2 ≤ 59 &&
               (match rest2 with
                | [] => true
                | '.' :: fs => fs.all Char.isDigit && (fs.length = 3 || fs.length = 6)
                | _ => false)
         | _ => false)
  | _ => false

/-- A timezone suffix `±HH:MM` or `±HH:MM:SS` as accepted by
`datetime.fromisoformat` (the only one arising here is the `+00:00`
produced by `replace('Z', '+00:00')`). -/
def validTZ : List Char → Bool
  | sgn :: h1 :: h2 :: ':' :: m1 :: m2 :: rest =>
      (sgn = '+' || sgn = '-') && h1.isDigit && h2.isDigit && twoVal h1 h2 ≤ 23 &&
        m1.isDigit && m2.isDigit && twoVal m1 m2 ≤ 59 &&
        (match rest with
         | [] => true
         | ':' :: s1 :: s2 :: [] => s1.isDigit && s2.isDigit && twoVal s1 s2 ≤ 59
         | _ => false)
  | _ => false

/-- Everything after the hour digits of an ISO time string: minutes /
seconds / fraction, then an optional timezone part starting at the first
`+` or `-`. -/
def validTimeRest (cs : List Char) : Bool :=
  match cs.findIdx? (fun c => c = '+' || c = '-') with
  | none => validHMSF cs
  | some idx => validHMSF (cs.take idx) && validTZ (cs.drop idx)

/-- Hour of the time part `HH[:MM[:SS[.frac]]][±HH:MM]` of an ISO string. -/
def isoTimeHour (cs : List Char) : Option Nat :=
  match cs with
  | h1 :: h2 :: rest =>
      if h1.isDigit && h2.isDigit && twoVal h1 h2 ≤ 23 && validTimeRest rest then
        some (twoVal h1 h2)
      else none
  | _ => none

/-- Model of `datetime.fromisoformat(s).hour`: `none` models the raised
`ValueError`. Grammar: `YYYY-MM-DD` optionally followed by a one-character
separator and a time part. (The day is range-checked against 31 rather
than the per-month length, and pre-3.11 length restrictions on the time
part are relaxed to the grammar above; no input considered here
distinguishes these.) -/
def fromIsoHour (s : String) : Option Nat :=
  match s.data with
  | y1 :: y2 :: y3 :: y4 :: '-' :: m1 :: m2 :: '-' :: d1 :: d2 :: rest =>
      if [y1, y2, y3, y4, m1, m2, d1, d2].all Char.isDigit &&
          1 ≤ twoVal m1 m2 && twoVal m1 m2 ≤ 12 &&
          1 ≤ twoVal d1 d2 && twoVal d1 d2 ≤ 31 then
        match rest with
        | [] => some 0
        | _sep :: timecs => isoTimeHour timecs
      else none
  | _ => none

/-- `extract_hour` as defined identically in `train_simple.py` (lines
24–33), `api.py` and `api_simple.py`: try
`datetime.fromisoformat(time_str.replace('Z','+00:00')).hour`; on failure
try `int(time_str.split(' ')[1].split(':')[0])`; on any failure there
(including the `IndexError` when the string has no space) return 12. -/
def extract_hour (s : String) : Int :=
  match fromIsoHour (replaceZ s) with
  | some h => (h : Int)
  | none =>
      match (splitOnChar ' ' s.data).get? 1 with
      | none => 12
      | some tok =>
          match pyInt ((splitOnChar ':' tok).headD []) with
          | some n => n
          | none => 12

/-- `extract_hour` as defined in `simple_train.py` (lines 128–132): try
`int(datetime.fromisoformat(...).hour)`; on failure evaluate
`int(time_str.split(':')[0]) if ':' in time_str else 12` with no further
exception handler — `none` models the uncaught `ValueError` when the text
before the first colon is not an integer. -/
def extract_hour_st (s : String) : Option Int :=
  match fromIsoHour (replaceZ s) with
  | some h => some (h : Int)
  | none =>
      if s.data.contains ':' then pyInt ((splitOnChar ':' s.data).headD [])
      else some 12

/-! ## The prediction service (`predict_price` of `api.py` / `api_simple.py`) -/

/-- A parsed inference request: the dictionary produced by the servers'
query parsing, with string keys and string values. -/
abbrev FlightData := List (String × String)

/-- `flight_data.get(k)`: first value stored under `k`, if any. -/
def pyLookup (fd : FlightData) (k : String) : Option String :=
  (List.find? (fun p => p.1 = k) fd).map (·.2)

/-- `flight_data.get(k, default)` for string defaults. -/
def pyGetD (fd : FlightData) (k : String) (dflt : String) : String :=
  (pyLookup fd k).getD dflt

/-- A category map (`airline_map`, `source_map`, `dest_map`, `class_map`):
a Python dict from category string to its dense integer code, modelled as
an association list. -/
abbrev CategoryMap := List (String × Int)

/-- `mapping.get(value)` on a category map. -/
def lookupCode (m : CategoryMap) (v : String) : Option Int :=
  (List.find? (fun p => p.1 = v) m).map (·.2)

/-- `encode_category(value, mapping)` (`api.py` l.41, `api_simple.py`
l.40): `mapping.get(value, -1)` — the code of the value, or the sentinel
−1 when the value is not in the map. -/
def encode_category (v : String) (m : CategoryMap) : Int :=
  (lookupCode m v).getD (-1)

/-- The persisted linear-model artifact, exactly the JSON object written
by `train_simple.py` (lines 181–194) and loaded as `MODEL_DATA` by both
API servers. -/
structure ModelData where
  weights : List ℚ
  bias : ℚ
  mean_x : List ℚ
  std_x : List ℚ
  airline_map : CategoryMap
  source_map : CategoryMap
  dest_map : CategoryMap
  class_map : CategoryMap
  mae : ℚ
  rmse : ℚ
  avg_price : ℚ
  feature_names : List String
deriving DecidableEq

/-- `float(flight_data.get(k, 0))`: absent key gives `0`; a present value
is parsed with `float`, whose `ValueError` (modelled by `Except.error`)
propagates to `predict_price`'s handler. -/
def getFloatField (fd : FlightData) (k : String) : Except String ℚ :=
  match pyLookup fd k with
  | none => Except.ok 0
  | some s =>
      match pyFloat s.data with
      | some q => Except.ok q
      | none => Except.error ("could not convert string to float: " ++ s)

/-- The feature list built by `predict_price` (`api_simple.py` lines
49–59, identical in `api.py` lines 50–60). Note the request keys:
`destinatin` and `duratin`, not `destination_city` / `duration`. The only
fallible steps are the three `float(...)` conversions, raised in list
order (stops, duratin, days_left); `extract_hour` never raises. -/
def computeFeatures (md : ModelData) (fd : FlightData) : Except String (List ℚ) :=
  match getFloatField fd "stops" with
  | Except.error e => Except.error e
  | Except.ok f2 =>
    match getFloatField fd "duratin" with
    | Except.error e => Except.error e
    | Except.ok f7 =>
      match getFloatField fd "days_left" with
      | Except.error e => Except.error e
      | Except.ok f8 =>
          Except.ok
            [ (encode_category (pyGetD fd "airline" "") md.airline_map : ℚ),
              (encode_category (pyGetD fd "source_city" "") md.source_map : ℚ),
              f2,
              (extract_hour (pyGetD fd "departure_time" "") : ℚ),
              (extract_hour (pyGetD fd "arrival_time" "") : ℚ),
              (encode_category (pyGetD fd "destinatin" "") md.dest_map : ℚ),
              (encode_category (pyGetD fd "class" "Economy") md.class_map : ℚ),
              f7,
              f8 ]

/-- The normalization loop `(features[i] - mean_x[i]) / std_x[i]` shared
verbatim by `predict_price` and `LinearRegression.predict`: running off
the end of `mean_x`/`std_x` is an `IndexError`, a zero standard deviation
a `ZeroDivisionError`; both are modelled by `Except.error`. -/
def normalizeFeats : List ℚ → List ℚ → List ℚ → Except String (List ℚ)
  | [], _, _ => Except.ok []
  | _ :: _, [], _ => Except.error "list index out of range"
  | _ :: _, _ :: _, [] => Except.error "list index out of range"
  | f :: fs, m :: ms, s :: ss =>
      if s = 0 then Except.error "float division by zero"
      else
        match normalizeFeats fs ms ss with
        | Except.error e => Except.error e
        | Except.ok rest => Except.ok (((f - m) / s) :: rest)

/-- `sum(weights[i] * normalized[i] for i in range(len(normalized)))`,
shared verbatim by `predict_price` and `LinearRegression.predict`; a
`weights` list shorter than `normalized` is an `IndexError`. -/
def dotW : List ℚ → List ℚ → Except String ℚ
  | _, [] => Except.ok 0
  | [], _ :: _ => Except.error "list index out of range"
  | w :: ws, n :: ns =>
      match dotW ws ns with
      | Except.error e => Except.error e
      | Except.ok r => Except.ok (w * n + r)

/-- `predict_price(flight_data)` (`api_simple.py` lines 45–83, identical
in `api.py` lines 46–84): build the nine features, reject if any equals
the sentinel −1, otherwise normalize, take bias plus the weighted sum and
clamp at zero. `Except.error` covers both the explicit category-miss
return and the `except Exception` handler that returns `(None, str(e))`. -/
def predict_price (md : ModelData) (fd : FlightData) : Except String ℚ :=
  match computeFeatures md fd with
  | Except.error e => Except.error e
  | Except.ok features =>
    if (-1 : ℚ) ∈ features then Except.error "Unknown airline, city, or class"
    else
      match normalizeFeats features md.mean_x md.std_x with
      | Except.error e => Except.error e
      | Except.ok normalized =>
        match dotW md.weights normalized with
        | Except.error e => Except.error e
        | Except.ok s => Except.ok (max 0 (md.bias + s))

/-! ## `LinearRegression` (`train_simple.py`) -/

/-- The state of a fitted `LinearRegression` (`train_simple.py` lines
43–113): weight per feature, bias, and the stored training-time
normalization vectors. -/
structure LinearRegression where
  weights : List ℚ
  bias : ℚ
  mean_x : List ℚ
  std_x : List ℚ
deriving DecidableEq

/-- `LinearRegression.predict` on one row (`train_simple.py` lines
99–113): normalize with the stored mean/std, add bias to the weighted
sum, and clamp with `max(0, pred)`. -/
def linPredictOne (m : LinearRegression) (x : List ℚ) : Except String ℚ :=
  match normalizeFeats x m.mean_x m.std_x with
  | Except.error e => Except.error e
  | Except.ok normalized =>
    match dotW m.weights normalized with
    | Except.error e => Except.error e
    | Except.ok s => Except.ok (max 0 (m.bias + s))

/-- `LinearRegression.predict(X)`: one prediction per row; an exception
aborts the whole call. -/
def linPredict (m : LinearRegression) : List (List ℚ) → Except String (List ℚ)
  | [] => Except.ok []
  | x :: xs =>
      match linPredictOne m x with
      | Except.error e => Except.error e
      | Except.ok p =>
        match linPredict m xs with
        | Except.error e => Except.error e
        | Except.ok ps => Except.ok (p :: ps)

/-- `LinearRegression.fit(X, y, learning_rate, iterations)`
(`train_simple.py` lines 52–97). `none` models the `IndexError` raised at
`n_features = len(X[0])` when `X` is empty — the only failure on
length-consistent inputs. The real square root used for the standard
deviation has no exact rational counterpart, so it is passed in as a
function argument `sqrt`; every theorem below holds for all `sqrt`.
Out-of-range indexing (`getD … 0`) and division by zero (`ℚ` yields 0)
can differ from Python only on inputs with `len(X) ≠ len(y)` or ragged
rows, which the theorems below exclude. -/
def linFit (sqrt : ℚ → ℚ) (X : List (List ℚ)) (y : List ℚ) (lr : ℚ)
    (iterations : Nat) : Option LinearRegression :=
  match X with
  | [] => none
  | x0 :: _ =>
    let nF := x0.length
    let n : ℚ := X.length
    let mean_x := (List.range nF).map (fun j => (X.map (fun r => r.getD j 0)).sum / n)
    let std_x := (List.range nF).map (fun j =>
      let v := (X.map (fun r => (r.getD j 0 - mean_x.getD j 0) ^ 2)).sum / n
      if 0 < v then sqrt v else 1)
    let Xnorm := X.map (fun r =>
      (List.range nF).map (fun j => (r.getD j 0 - mean_x.getD j 0) / std_x.getD j 0))
    let step := fun (wb : List ℚ × ℚ) =>
      let preds := Xnorm.map (fun r =>
        wb.2 + ((List.range nF).map (fun j => wb.1.getD j 0 * r.getD j 0)).sum)
      let errors := (y.zip preds).map (fun p => p.1 - p.2)
      let w' := (List.range nF).map (fun j =>
        wb.1.getD j 0 - lr * (-2 * ((errors.zip Xnorm).map
          (fun p => p.1 * p.2.getD j 0)).sum / n))
      let b' := wb.2 - lr * (-2 * errors.sum / (errors.length : ℚ))
      (w', b')
    let wb := step^[iterations] (List.replicate nF (0 : ℚ), (0 : ℚ))
    some ⟨wb.1, wb.2, mean_x, std_x⟩

/-- The JSON metadata written for the random-forest model by
`simple_train.py` (lines 197–205): the tree count, the four category
maps, the MAE and the average price — and nothing else. -/
structure ForestArtifact where
  trees_count : Nat
  airline_map : CategoryMap
  source_map : CategoryMap
  dest_map : CategoryMap
  class_map : CategoryMap
  mae : ℚ
  avg_price : ℚ
deriving DecidableEq

/-! ## `SimpleDecisionTree` and `SimpleRandomForest` (`simple_train.py`) -/

/-- The dict-of-dicts tree built by `_build_tree`: `{'value': v}` for a
leaf, `{'feature': f, 'split': s, 'left': …, 'right': …}` for an inner
node. -/
inductive DTree where
  | leaf (value : ℚ)
  | node (feature : Nat) (split : ℚ) (left right : DTree)
deriving DecidableEq, Repr

/-- The inner `variance` of `_calculate_gain` (`simple_train.py` lines
68–72): 0 for the empty list, else the population variance. -/
def variance (values : List ℚ) : ℚ :=
  if values.isEmpty then 0
  else
    let mean := values.sum / (values.length : ℚ)
    (values.map (fun x => (x - mean) ^ 2)).sum / (values.length : ℚ)

/-- `_calculate_gain(y, left_y, right_y)` (lines 66–78): parent variance
minus the size-weighted child variances. -/
def calculate_gain (y left_y right_y : List ℚ) : ℚ :=
  variance y -
    ((left_y.length : ℚ) * variance left_y + (right_y.length : ℚ) * variance right_y) /
      (y.length : ℚ)

/-- The sample pairs with `X[i][feature] <= split` together with their
targets — `left_X`/`left_y` of `_build_tree`. (Python indexes `y[i]` for
`i in range(len(X))`; the `zip` is identical when `len(X) = len(y)`.) -/
def partLe (f : Nat) (s : ℚ) (X : List (List ℚ)) (y : List ℚ) :
    List (List ℚ) × List ℚ :=
  let ps := (X.zip y).filter (fun p => p.1.getD f 0 ≤ s)
  (ps.map (·.1), ps.map (·.2))

/-- The complementary `X[i][feature] > split` partition. -/
def partGt (f : Nat) (s : ℚ) (X : List (List ℚ)) (y : List ℚ) :
    List (List ℚ) × List ℚ :=
  let ps := (X.zip y).filter (fun p => s < p.1.getD f 0)
  (ps.map (·.1), ps.map (·.2))

/-- `sorted(set(x[feature_idx] for x in X))`: the distinct observed values
of a feature in ascending order. -/
def candidateValues (X : List (List ℚ)) (f : Nat) : List ℚ :=
  List.insertionSort (· ≤ ·) ((X.map (fun x => x.getD f 0)).dedup)

/-- The split search of `_build_tree` (lines 28–46): iterate features in
order and, within a feature, candidate thresholds in ascending order;
skip splits with an empty side; keep the first pair whose gain strictly
exceeds the best so far, starting from `best_gain = 0`. Returns
`best_feature`/`best_split`, or `none` when no split has positive gain.
(`len(X[0])` is read as 0 for empty `X`; Python would raise there, but
that point is reachable only when `len(X) ≠ len(y)`.) -/
def scanSplits (X : List (List ℚ)) (y : List ℚ) : Option (Nat × ℚ) :=
  let nF := (X.headD []).length
  let pairs := (List.range nF).flatMap (fun f => (candidateValues X f).map (fun s => (f, s)))
  (pairs.foldl
    (fun acc fs =>
      let ly := (partLe fs.1 fs.2 X y).2
      let ry := (partGt fs.1 fs.2 X y).2
      if ly.isEmpty ∨ ry.isEmpty then acc
      else
        let g := calculate_gain y ly ry
        if acc.1 < g then (g, some fs) else acc)
    ((0 : ℚ), (none : Option (Nat × ℚ)))).2

/-- The leaf `{'value': sum(y) / len(y)}`; `none` models the
`ZeroDivisionError` on an empty `y`. -/
def leafOf (y : List ℚ) : Option DTree :=
  if y.isEmpty then none else some (DTree.leaf (y.sum / (y.length : ℚ)))

/-- `_build_tree(X, y, depth)` (lines 24–64), with `fuel = max_depth -
depth` so that `fuel = 0` is the `depth >= self.max_depth` test. Emit a
leaf when depth is exhausted, the sample count is under
`min_samples_split`, or no split has positive gain; otherwise split on
the best feature/threshold and recurse on both partitions. -/
def build_tree (mss : Nat) : Nat → List (List ℚ) → List ℚ → Option DTree
  | 0, _, y => leafOf y
  | fuel + 1, X, y =>
      if y.length < mss then leafOf y
      else
        match scanSplits X y with
        | none => leafOf y
        | some (bf, bs) =>
            match build_tree mss fuel (partLe bf bs X y).1 (partLe bf bs X y).2,
                  build_tree mss fuel (partGt bf bs X y).1 (partGt bf bs X y).2 with
            | some l, some r => some (DTree.node bf bs l r)
            | _, _ => none

/-- `SimpleDecisionTree.fit(X, y)` (lines 20–22): build from depth 0. -/
def tree_fit (max_depth mss : Nat) (X : List (List ℚ)) (y : List ℚ) : Option DTree :=
  build_tree mss max_depth X y

/-- `_traverse_tree(x, node)` (lines 83–91): go left on
`x[feature] <= split`, right otherwise. -/
def traverse_tree (x : List ℚ) : DTree → ℚ
  | DTree.leaf v => v
  | DTree.node f s l r => if x.getD f 0 ≤ s then traverse_tree x l else traverse_tree x r

/-- `SimpleDecisionTree.predict(X)` (lines 80–81). -/
def tree_predict (t : DTree) (X : List (List ℚ)) : List ℚ :=
  X.map (fun x => traverse_tree x t)

/-- `SimpleRandomForest.predict(X)` (lines 113–115): for each row the
list `[tree.predict([x])[0] for tree in self.trees]`, then
`sum(p) / len(p)`. (An empty tree list would be Python's
`ZeroDivisionError`; in `ℚ` the division yields 0, and the theorems using
this assume at least one tree.) -/
def forest_predict (trees : List DTree) (X : List (List ℚ)) : List ℚ :=
  (X.map (fun x => trees.map (fun t => (tree_predict t [x]).headD 0))).map
    (fun p => p.sum / (p.length : ℚ))

/-- The arithmetic mean, as the spec's testable property states it:
`sum / length`. -/
def arithMean (l : List ℚ) : ℚ := l.sum / (l.length : ℚ)

/-! ## Artifact serialization -/

/-- The `model_data` JSON object written by `train_simple.py`'s
`train_model` (lines 181–194): all `LinearRegression` parameters, the
four category maps, the metrics and the feature-name list. -/
def serialize_linear (m : LinearRegression) (am sm dm cm : CategoryMap)
    (mae rmse avg : ℚ) (names : List String) : ModelData :=
  ⟨m.weights, m.bias, m.mean_x, m.std_x, am, sm, dm, cm, mae, rmse, avg, names⟩

/-- Reconstructing the linear model from a persisted artifact (what the
API servers do implicitly by reading `MODEL_DATA['weights']` etc.). -/
def load_linear (md : ModelData) : LinearRegression :=
  ⟨md.weights, md.bias, md.mean_x, md.std_x⟩

/-- The `model_data` JSON object written for the random forest by
`simple_train.py`'s `train_model` (lines 197–205): only the tree COUNT,
the category maps, the MAE and the average price — the trees themselves
are not written. -/
def serialize_forest (trees : List DTree) (am sm dm cm : CategoryMap)
    (mae avg : ℚ) : ForestArtifact :=
  ⟨trees.length, am, sm, dm, cm, mae, avg⟩

/-- The leaf-value invariant of a fitted tree: relative to the training
sample `(X, y)` it was built from, every leaf stores the arithmetic mean
of the (non-empty) subset of `y` routed to it by the thresholds on the
path, i.e. the targets of that leaf's partition. -/
def TreeMeansOf : List (List ℚ) → List ℚ → DTree → Prop
  | _, y, DTree.leaf v => y ≠ [] ∧ v = y.sum / (y.length : ℚ)
  | X, y, DTree.node f s l r =>
      TreeMeansOf (partLe f s X y).1 (partLe f s X y).2 l ∧
      TreeMeansOf (partGt f s X y).1 (partGt f s X y).2 r

/-! ## Concrete fixtures used by witnesses and counterexamples -/

/-- A small linear-model artifact: one known airline/source/destination,
two classes, nine unit weights, zero means, unit standard deviations. -/
def mdSample : ModelData where
  weights := [1, 1, 1, 1, 1, 1, 1, 1, 1]
  bias := 0
  mean_x := [0, 0, 0, 0, 0, 0, 0, 0, 0]
  std_x := [1, 1, 1, 1, 1, 1, 1, 1, 1]
  airline_map := [("IndiGo", 0)]
  source_map := [("Mumbai", 0)]
  dest_map := [("Delhi", 0)]
  class_map := [("Economy", 0), ("Business", 1)]
  mae := 0
  rmse := 0
  avg_price := 0
  feature_names := ["airline", "source_city", "stops", "departure_hour",
    "arrival_hour", "destination", "class", "duration", "days_left"]

/-- A request using the key names the servers actually read
(`destinatin`, `duratin`). -/
def fdGood : FlightData :=
  [("airline", "IndiGo"), ("source_city", "Mumbai"), ("stops", "0"),
   ("departure_time", "10:00"), ("arrival_time", "12:30"),
   ("destinatin", "Delhi"), ("class", "Business"), ("duratin", "150"),
   ("days_left", "5")]

/-- The same request with the destination and duration supplied under the
spec's field names `destination_city` and `duration`. -/
def fdSpecNames : FlightData :=
  [("airline", "IndiGo"), ("source_city", "Mumbai"), ("stops", "0"),
   ("departure_time", "10:00"), ("arrival_time", "12:30"),
   ("destination_city", "Delhi"), ("class", "Business"), ("duration", "150"),
   ("days_left", "5")]

/-- `fdGood` with an airline absent from `airline_map`. -/
def fdUnknownAirline : FlightData :=
  [("airline", "UnknownCarrier"), ("source_city", "Mumbai"), ("stops", "0"),
   ("departure_time", "10:00"), ("arrival_time", "12:30"),
   ("destinatin", "Delhi"), ("class", "Business"), ("duratin", "150"),
   ("days_left", "5")]

/-- `fdGood` with the purely numeric field `days_left` set to −1; every
categorical value is known. -/
def fdNegDays : FlightData :=
  [("airline", "IndiGo"), ("source_city", "Mumbai"), ("stops", "0"),
   ("departure_time", "10:00"), ("arrival_time", "12:30"),
   ("destinatin", "Delhi"), ("class", "Business"), ("duratin", "150"),
   ("days_left", "-1")]

/-- Concrete evaluation: the feature vector the service computes for
`fdGood` against `mdSample` — `[airline 0, source 0, stops 0, hour 12,
hour 12, dest 0, class 1, duration 150, days 5]` (`extract_hour` yields
12 for the bare `HH:MM` strings). -/
theorem computeFeatures_fdGood_eval :
    computeFeatures mdSample fdGood = Except.ok [0, 0, 0, 12, 12, 0, 1, 150, 5] := by
  simp +decide [computeFeatures, getFloatField, pyFloat, trimWs, splitOnChar, digitsVal,
    pyGetD, pyLookup, encode_category, lookupCode, mdSample, fdGood]

/-- Concrete evaluation: the service's response to `fdGood` against
`mdSample` is the clamped affine score 0 + 0+0+0+12+12+0+1+150+5 = 180. -/
theorem predict_price_fdGood_eval :
    predict_price mdSample fdGood = Except.ok 180 := by
  have h1 : extract_hour "10:00" = 12 := by decide
  have h2 : extract_hour "12:30" = 12 := by decide
  simp +decide [predict_price, computeFeatures, getFloatField, pyFloat, trimWs, splitOnChar,
    digitsVal, pyGetD, pyLookup, encode_category, lookupCode, mdSample, fdGood,
    normalizeFeats, dotW, h1, h2]
  norm_num


/-! ## Helper lemmas -/

/-- A successful `computeFeatures` returns exactly the nine-entry list of
`predict_price`, with the categorical and hour entries determined by the
request and some parsed values for the three `float` fields. -/
theorem computeFeatures_ok_shape {md : ModelData} {fd : FlightData} {fs : List ℚ}
    (h : computeFeatures md fd = Except.ok fs) :
    ∃ q2 q7 q8 : ℚ,
      fs = [(encode_category (pyGetD fd "airline" "") md.airline_map : ℚ),
            (encode_category (pyGetD fd "source_city" "") md.source_map : ℚ),
            q2,
            (extract_hour (pyGetD fd "departure_time" "") : ℚ),
            (extract_hour (pyGetD fd "arrival_time" "") : ℚ),
            (encode_category (pyGetD fd "destinatin" "") md.dest_map : ℚ),
            (encode_category (pyGetD fd "class" "Economy") md.class_map : ℚ),
            q7, q8] := by
  unfold computeFeatures at h
  cases h2 : getFloatField fd "stops" with
  | error e => simp [h2] at h
  | ok q2 =>
    cases h7 : getFloatField fd "duratin" with
    | error e => simp [h2, h7] at h
    | ok q7 =>
      cases h8 : getFloatField fd "days_left" with
      | error e => simp [h2, h7, h8] at h
      | ok q8 =>
        simp only [h2, h7, h8, Except.ok.injEq] at h
        exact ⟨q2, q7, q8, h.symm⟩

/-- A successful `linPredictOne` result is clamped: it is `max 0` of the
affine combination. -/
theorem linPredictOne_ok {m : LinearRegression} {x : List ℚ} {p : ℚ}
    (h : linPredictOne m x = Except.ok p) : 0 ≤ p := by
  unfold linPredictOne at h
  cases hn : normalizeFeats x m.mean_x m.std_x with
  | error e => simp [hn] at h
  | ok normalized =>
    cases hd : dotW m.weights normalized with
    | error e => simp [hn, hd] at h
    | ok s =>
      simp only [hn, hd, Except.ok.injEq] at h
      exact h ▸ le_max_left 0 _

/-! ## C3 (`code_bug`): empty-training-set handling -/

/-- C3. The spec requires an empty training set to be REJECTED BEFORE
fitting begins. Neither fitter has such a guard: the failure surfaces as
an exception from inside the algorithm. Evaluating both fitters at the
failing input (the empty sample set): `SimpleDecisionTree.fit` reaches
the leaf branch of `_build_tree` and divides by `len(y) = 0`
(`ZeroDivisionError`, modelled by `none` from `leafOf`), and
`LinearRegression.fit` indexes `X[0]` (`IndexError`, modelled by `none`).
The fit never returns a model, but no precondition check exists. -/
theorem fit_on_empty_set_fails_inside :
    tree_fit 10 2 [] [] = none ∧
    linFit (fun q => q) [] [] (1 / 100) 100 = none :=
  ⟨rfl, rfl⟩

/-! ## C4 (corrected): hour extraction -/

/-- C4 counterexample. The claim says the hour-extraction function
returns the hour component of a bare `HH:MM` fragment. The version in
`train_simple.py`/`api.py`/`api_simple.py` returns 12 for `"10:00"` (its
fallback indexes `split(' ')[1]`, which does not exist), not 10. -/
theorem extract_hour_bare_hhmm_gives_12 :
    extract_hour "10:00" = 12 ∧ extract_hour "10:00" ≠ 10 := by decide

/-- C4 amended. `extract_hour` (`train_simple.py` and both APIs) returns
the hour of a full ISO-style timestamp; otherwise the integer before the
first `:` of the SECOND space-separated token when that parses; otherwise
12, never raising — so a bare `HH:MM` yields 12. The `simple_train.py`
variant does return the hour of a bare `HH:MM` fragment and yields 12
when no colon is present, but raises an uncaught `ValueError` (modelled
by `none`) when the text before the first colon is not an integer. -/
theorem extract_hour_behavior :
    extract_hour "2026-02-20 10:00" = 10 ∧
    extract_hour "2026-02-20T10:00Z" = 10 ∧
    extract_hour "Feb 20 10:30" = 20 ∧
    extract_hour "garbage" = 12 ∧
    extract_hour "10:00" = 12 ∧
    extract_hour_st "2026-02-20 10:00" = some 10 ∧
    extract_hour_st "10:00" = some 10 ∧
    extract_hour_st "garbage" = some 12 ∧
    extract_hour_st "ab:cd" = none := by decide

/-! ## C7 (confirmed): forest prediction is the mean of tree predictions -/

/-- C7. `SimpleRandomForest.predict` returns, for every input row, exactly
the arithmetic mean (`sum / length`) of the individual tree predictions on
that row. -/
theorem forest_predict_is_mean_of_tree_predictions (trees : List DTree)
    (X : List (List ℚ)) :
    forest_predict trees X =
      X.map (fun x => arithMean (trees.map (fun t => traverse_tree x t))) := by
  simp [forest_predict, tree_predict, arithMean]

/-! ## C5 (corrected): artifact round-trip -/

/-- C5 counterexample. Two forests with different trees (hence different
predictions) serialize to the SAME persisted artifact: `simple_train.py`
writes only the tree count, the category maps, the MAE and the average
price, so the artifact does not contain the tree structures and cannot
reproduce forest predictions. -/
theorem forest_artifact_forgets_trees :
    tree_fit 0 2 [[0]] [1] = some (DTree.leaf 1) ∧
    tree_fit 0 2 [[0]] [2] = some (DTree.leaf 2) ∧
    serialize_forest [DTree.leaf 1] [] [] [] [] 0 0 =
      serialize_forest [DTree.leaf 2] [] [] [] [] 0 0 ∧
    forest_predict [DTree.leaf 1] [[0]] ≠ forest_predict [DTree.leaf 2] [[0]] := by
  refine ⟨?_, ?_, rfl, ?_⟩
  · norm_num [tree_fit, build_tree, leafOf]
  · norm_num [tree_fit, build_tree, leafOf]
  · simp [forest_predict, tree_predict, traverse_tree]

/-- C5 amended. The LINEAR artifact written by `train_simple.py` carries
all parameters needed for inference (weights, bias, `mean_x`, `std_x`):
reloading it reproduces identical predictions for every input, and the
serving path `predict_price` computes exactly the reloaded model's
prediction on the encoded feature vector whenever the sentinel check
passes. The forest artifact (see the counterexample) omits the trees. -/
theorem linear_artifact_roundtrip :
    (∀ (m : LinearRegression) (am sm dm cm : CategoryMap) (mae rmse avg : ℚ)
        (names : List String) (x : List ℚ),
      linPredictOne (load_linear (serialize_linear m am sm dm cm mae rmse avg names)) x =
        linPredictOne m x) ∧
    (∀ (md : ModelData) (fd : FlightData) (fs : List ℚ),
      computeFeatures md fd = Except.ok fs → (-1 : ℚ) ∉ fs →
      predict_price md fd = linPredictOne (load_linear md) fs) := by
  constructor
  · intro m am sm dm cm mae rmse avg names x
    rfl
  · intro md fd fs hok hmem
    simp only [predict_price, hok, if_neg hmem, linPredictOne, load_linear]

/-- C5 amended, witness: round-tripping a concrete model through the
artifact leaves its prediction unchanged, and the serving path on
`fdGood` computes exactly the reloaded model's prediction on the encoded
features. -/
theorem linear_artifact_roundtrip_witness :
    linPredictOne
        (load_linear (serialize_linear (load_linear mdSample) [] [] [] [] 0 0 0 []))
        [1, 2] =
      linPredictOne (load_linear mdSample) [1, 2] ∧
    predict_price mdSample fdGood =
      linPredictOne (load_linear mdSample) [0, 0, 0, 12, 12, 0, 1, 150, 5] :=
  ⟨linear_artifact_roundtrip.1 (load_linear mdSample) [] [] [] [] 0 0 0 [] [1, 2],
   linear_artifact_roundtrip.2 mdSample fdGood [0, 0, 0, 12, 12, 0, 1, 150, 5]
     computeFeatures_fdGood_eval (by norm_num)⟩

/-! ## C8 (confirmed): non-negative predictions -/

/-- C8. Every numeric price returned by the service's `predict_price` and
every prediction of `LinearRegression.predict` is non-negative: both
clamp with `max(0, …)` at the prediction boundary. -/
theorem prediction_nonneg :
    (∀ (md : ModelData) (fd : FlightData) (q : ℚ),
      predict_price md fd = Except.ok q → 0 ≤ q) ∧
    (∀ (m : LinearRegression) (X : List (List ℚ)) (ps : List ℚ),
      linPredict m X = Except.ok ps → ∀ p ∈ ps, 0 ≤ p) := by
  constructor
  · intro md fd q h
    unfold predict_price at h
    cases hcf : computeFeatures md fd with
    | error e => simp [hcf] at h
    | ok fs =>
      simp only [hcf] at h
      by_cases hmem : (-1 : ℚ) ∈ fs
      · simp [if_pos hmem] at h
      · rw [if_neg hmem] at h
        cases hn : normalizeFeats fs md.mean_x md.std_x with
        | error e => simp [hn] at h
        | ok normalized =>
          cases hd : dotW md.weights normalized with
          | error e => simp [hn, hd] at h
          | ok s =>
            simp only [hn, hd, Except.ok.injEq] at h
            exact h ▸ le_max_left 0 _
  · intro m X
    induction X with
    | nil =>
      intro ps h p hp
      simp only [linPredict, Except.ok.injEq] at h
      subst h
      cases hp
    | cons x xs ih =>
      intro ps h p hp
      simp only [linPredict] at h
      cases h1 : linPredictOne m x with
      | error e => simp [h1] at h
      | ok p0 =>
        simp only [h1] at h
        cases h2 : linPredict m xs with
        | error e => simp [h2] at h
        | ok ps0 =>
          simp only [h2, Except.ok.injEq] at h
          subst h
          rcases List.mem_cons.1 hp with rfl | hmem
          · exact linPredictOne_ok h1
          · exact ih ps0 h2 p hmem

/-- C8 witness: the service's successful response 180 to `fdGood` is
non-negative, and so is the reloaded linear model's prediction 9 on a
row of ones. -/
theorem prediction_nonneg_witness :
    (0 : ℚ) ≤ 180 ∧ (0 : ℚ) ≤ 9 :=
  ⟨prediction_nonneg.1 mdSample fdGood 180 predict_price_fdGood_eval,
   prediction_nonneg.2 (load_linear mdSample) [[1, 1, 1, 1, 1, 1, 1, 1, 1]] [9]
     (by norm_num [linPredict, linPredictOne, load_linear, mdSample,
           normalizeFeats, dotW])
     9 (by simp)⟩

/-! ## C1 (corrected): request field names -/

/-- C1 counterexample. A request that supplies the destination under the
claimed field name `destination_city` (with a destination that IS in the
artifact's `dest_map`) and the duration under `duration` is rejected with
the category-miss error: the service never reads those keys. The same
request with the actually-read keys `destinatin`/`duratin` succeeds. -/
theorem destination_city_key_not_read :
    predict_price mdSample fdSpecNames = Except.error "Unknown airline, city, or class" ∧
    predict_price mdSample fdGood = Except.ok 180 := by
  constructor
  · simp +decide [predict_price, computeFeatures, getFloatField, pyFloat, trimWs,
      splitOnChar, digitsVal, pyGetD, pyLookup, encode_category, lookupCode,
      mdSample, fdSpecNames]
  · exact predict_price_fdGood_eval

/-- C1 amended. The service consumes exactly the request keys
`airline, source_city, stops, departure_time, arrival_time, destinatin,
class, duratin, days_left` — the training columns of `simple_train.py`
minus `price`, with the destination read under `destinatin` and the
duration under `duratin` (not `destination_city`/`duration`): two
requests that agree on those nine keys get identical responses. -/
theorem predict_price_reads_fixed_keys (md : ModelData) (fd fd' : FlightData)
    (h : ∀ k ∈ ["airline", "source_city", "stops", "departure_time", "arrival_time",
                "destinatin", "class", "duratin", "days_left"],
        pyLookup fd k = pyLookup fd' k) :
    predict_price md fd = predict_price md fd' := by
  have h1 := h "airline" (by simp)
  have h2 := h "source_city" (by simp)
  have h3 := h "stops" (by simp)
  have h4 := h "departure_time" (by simp)
  have h5 := h "arrival_time" (by simp)
  have h6 := h "destinatin" (by simp)
  have h7 := h "class" (by simp)
  have h8 := h "duratin" (by simp)
  have h9 := h "days_left" (by simp)
  simp only [predict_price, computeFeatures, getFloatField, pyGetD,
    h1, h2, h3, h4, h5, h6, h7, h8, h9]

/-- C1 amended, witness: extending `fdGood` with an (unread)
`destination_city` entry leaves the response unchanged. -/
theorem predict_price_reads_fixed_keys_witness :
    predict_price mdSample fdGood =
      predict_price mdSample (fdGood ++ [("destination_city", "Mumbai")]) :=
  predict_price_reads_fixed_keys mdSample fdGood
    (fdGood ++ [("destination_city", "Mumbai")]) (by decide)

/-! ## C2 (confirmed): unknown categories are rejected -/

/-- C2. If any of the four categorical fields of a request is absent from
its category map in the artifact, `predict_price` returns the error
variant — it never returns a numeric price. (When the numeric fields also
parse, the message is the category-miss message; if one of them fails to
parse first, the response is still the error variant.) -/
theorem unknown_category_yields_error (md : ModelData) (fd : FlightData)
    (h : lookupCode md.airline_map (pyGetD fd "airline" "") = none ∨
         lookupCode md.source_map (pyGetD fd "source_city" "") = none ∨
         lookupCode md.dest_map (pyGetD fd "destinatin" "") = none ∨
         lookupCode md.class_map (pyGetD fd "class" "Economy") = none) :
    (∃ msg, predict_price md fd = Except.error msg) ∧
    (∀ fs, computeFeatures md fd = Except.ok fs →
      predict_price md fd = Except.error "Unknown airline, city, or class") := by
  have hmem : ∀ fs, computeFeatures md fd = Except.ok fs → (-1 : ℚ) ∈ fs := by
    intro fs hfs
    obtain ⟨q2, q7, q8, rfl⟩ := computeFeatures_ok_shape hfs
    rcases h with h | h | h | h <;> simp [encode_category, h]
  constructor
  · cases hcf : computeFeatures md fd with
    | error e => exact ⟨e, by simp [predict_price, hcf]⟩
    | ok fs =>
      exact ⟨"Unknown airline, city, or class",
        by simp only [predict_price, hcf]; rw [if_pos (hmem fs hcf)]⟩
  · intro fs hfs
    simp only [predict_price, hfs]
    rw [if_pos (hmem fs hfs)]

/-- C2 witness: a request whose airline is not in `airline_map` is
answered with the error variant. -/
theorem unknown_category_yields_error_witness :
    ∃ msg, predict_price mdSample fdUnknownAirline = Except.error msg :=
  (unknown_category_yields_error mdSample fdUnknownAirline (Or.inl (by decide))).1

/-! ## C9 (confirmed): the sentinel check covers the numeric features -/

/-- C9. The check `any(f == -1 for f in features)` runs over all nine
encoded features, including the purely numeric ones: whenever the encoded
feature list contains −1 anywhere — e.g. `days_left = -1`, with every
categorical field known — `predict_price` returns the error variant with
the message `Unknown airline, city, or class` and no numeric price. -/
theorem minus_one_feature_rejected (md : ModelData) (fd : FlightData) (fs : List ℚ)
    (hok : computeFeatures md fd = Except.ok fs) (hmem : (-1 : ℚ) ∈ fs) :
    predict_price md fd = Except.error "Unknown airline, city, or class" := by
  simp only [predict_price, hok]
  rw [if_pos hmem]

/-- C9 witness: `fdNegDays` has every categorical value in its map and
`days_left = -1`; the service still answers with the category-miss
error. -/
theorem minus_one_feature_rejected_witness :
    predict_price mdSample fdNegDays = Except.error "Unknown airline, city, or class" :=
  minus_one_feature_rejected mdSample fdNegDays [0, 0, 0, 12, 12, 0, 1, 150, -1]
    (by simp +decide [computeFeatures, getFloatField, pyFloat, trimWs, splitOnChar,
          digitsVal, pyGetD, pyLookup, encode_category, lookupCode, mdSample, fdNegDays])
    (by norm_num)

/-! ## Tree structure lemmas (C6, C10) -/

/-- A successful `leafOf` means a non-empty target list and the mean
leaf. -/
theorem leafOf_some {y : List ℚ} {t : DTree} (h : leafOf y = some t) :
    y ≠ [] ∧ t = DTree.leaf (y.sum / (y.length : ℚ)) := by
  unfold leafOf at h
  split at h
  · cases h
  · rename_i hne
    refine ⟨by simpa [List.isEmpty_iff] using hne, ?_⟩
    cases h
    rfl

/-- Every tree produced by `_build_tree` satisfies the leaf-mean
invariant with respect to the sample it was built from. -/
theorem build_tree_means (mss : Nat) :
    ∀ fuel X y t, build_tree mss fuel X y = some t → TreeMeansOf X y t := by
  intro fuel
  induction fuel with
  | zero =>
    intro X y t h
    simp only [build_tree] at h
    obtain ⟨hny, rfl⟩ := leafOf_some h
    exact ⟨hny, rfl⟩
  | succ n ih =>
    intro X y t h
    simp only [build_tree] at h
    by_cases hmss : y.length < mss
    · rw [if_pos hmss] at h
      obtain ⟨hny, rfl⟩ := leafOf_some h
      exact ⟨hny, rfl⟩
    · rw [if_neg hmss] at h
      cases hs : scanSplits X y with
      | none =>
        rw [hs] at h
        obtain ⟨hny, rfl⟩ := leafOf_some h
        exact ⟨hny, rfl⟩
      | some fs =>
        obtain ⟨bf, bs⟩ := fs
        simp only [hs] at h
        cases hl : build_tree mss n (partLe bf bs X y).1 (partLe bf bs X y).2 with
        | none => simp [hl] at h
        | some l =>
          cases hr : build_tree mss n (partGt bf bs X y).1 (partGt bf bs X y).2 with
          | none => simp [hl, hr] at h
          | some r =>
            simp only [hl, hr, Option.some.injEq] at h
            subst h
            exact ⟨ih _ _ _ hl, ih _ _ _ hr⟩

/-- Elements of the `<=`-partition's target list come from `y`. -/
theorem mem_partLe_snd {f : Nat} {s : ℚ} {X : List (List ℚ)} {y : List ℚ} {e : ℚ}
    (h : e ∈ (partLe f s X y).2) : e ∈ y := by
  simp only [partLe, List.mem_map, List.mem_filter] at h
  obtain ⟨⟨xa, ya⟩, ⟨hzip, _⟩, rfl⟩ := h
  exact (List.of_mem_zip hzip).2

/-- Elements of the `>`-partition's target list come from `y`. -/
theorem mem_partGt_snd {f : Nat} {s : ℚ} {X : List (List ℚ)} {y : List ℚ} {e : ℚ}
    (h : e ∈ (partGt f s X y).2) : e ∈ y := by
  simp only [partGt, List.mem_map, List.mem_filter] at h
  obtain ⟨⟨xa, ya⟩, ⟨hzip, _⟩, rfl⟩ := h
  exact (List.of_mem_zip hzip).2

/-- The arithmetic mean of a non-empty list lies between any lower and
upper bound of its elements. -/
theorem mean_bounds {y : List ℚ} (hny : y ≠ []) {a b : ℚ}
    (h : ∀ e ∈ y, a ≤ e ∧ e ≤ b) :
    a ≤ y.sum / (y.length : ℚ) ∧ y.sum / (y.length : ℚ) ≤ b := by
  have hlen : 0 < (y.length : ℚ) := by
    exact_mod_cast List.length_pos.2 hny
  constructor
  · rw [le_div_iff₀ hlen]
    have := List.card_nsmul_le_sum y a (fun e he => (h e he).1)
    rw [nsmul_eq_mul] at this
    linarith
  · rw [div_le_iff₀ hlen]
    have := List.sum_le_card_nsmul y b (fun e he => (h e he).2)
    rw [nsmul_eq_mul] at this
    linarith

/-- Every prediction of a fitted tree lies within any bounds enclosing
the targets it was fitted on: each leaf is a mean of a non-empty subset
of `y`. -/
theorem build_tree_pred_bounds (mss : Nat) :
    ∀ fuel X y t, build_tree mss fuel X y = some t →
      ∀ a b, (∀ e ∈ y, a ≤ e ∧ e ≤ b) →
        ∀ x, a ≤ traverse_tree x t ∧ traverse_tree x t ≤ b := by
  intro fuel
  induction fuel with
  | zero =>
    intro X y t h a b hb x
    simp only [build_tree] at h
    obtain ⟨hny, rfl⟩ := leafOf_some h
    simpa [traverse_tree] using mean_bounds hny hb
  | succ n ih =>
    intro X y t h a b hb x
    simp only [build_tree] at h
    by_cases hmss : y.length < mss
    · rw [if_pos hmss] at h
      obtain ⟨hny, rfl⟩ := leafOf_some h
      simpa [traverse_tree] using mean_bounds hny hb
    · rw [if_neg hmss] at h
      cases hs : scanSplits X y with
      | none =>
        rw [hs] at h
        obtain ⟨hny, rfl⟩ := leafOf_some h
        simpa [traverse_tree] using mean_bounds hny hb
      | some fs =>
        obtain ⟨bf, bs⟩ := fs
        simp only [hs] at h
        cases hl : build_tree mss n (partLe bf bs X y).1 (partLe bf bs X y).2 with
        | none => simp [hl] at h
        | some l =>
          cases hr : build_tree mss n (partGt bf bs X y).1 (partGt bf bs X y).2 with
          | none => simp [hl, hr] at h
          | some r =>
            simp only [hl, hr, Option.some.injEq] at h
            subst h
            by_cases hx : x.getD bf 0 ≤ bs
            · rw [traverse_tree, if_pos hx]
              exact ih _ _ _ hl a b (fun e he => hb e (mem_partLe_snd he)) x
            · rw [traverse_tree, if_neg hx]
              exact ih _ _ _ hr a b (fun e he => hb e (mem_partGt_snd he)) x

/-- Concrete evaluation of the tree fitter on the two-sample set
`X = [[1],[2]]`, `y = [10,20]` with depth 1: the split search picks
feature 0 at threshold 1 (variance reduction 25) and the two leaves get
the partition means 10 and 20. -/
theorem build_tree_example_eval :
    build_tree 2 1 [[1], [2]] [10, 20] =
      some (DTree.node 0 1 (DTree.leaf 10) (DTree.leaf 20)) := by
  have hle1 : partLe 0 1 [[1], [2]] [10, 20] = ([[1]], [10]) := by
    norm_num [partLe, List.zip, List.zipWith, List.filter]
  have hgt1 : partGt 0 1 [[1], [2]] [10, 20] = ([[2]], [20]) := by
    norm_num [partGt, List.zip, List.zipWith, List.filter]
  have hle2 : partLe 0 2 [[1], [2]] [10, 20] = ([[1], [2]], [10, 20]) := by
    norm_num [partLe, List.zip, List.zipWith, List.filter]
  have hgt2 : partGt 0 2 [[1], [2]] [10, 20] = ([], []) := by
    norm_num [partGt, List.zip, List.zipWith, List.filter]
  have hgain : calculate_gain [10, 20] [10] [20] = 25 := by
    norm_num [calculate_gain, variance]
  have hcand : candidateValues [[1], [2]] 0 = [1, 2] := by
    norm_num [candidateValues, List.insertionSort, List.orderedInsert,
      List.dedup, List.pwFilter]
  have hscan : scanSplits [[1], [2]] [10, 20] = some (0, 1) := by
    simp only [scanSplits, List.headD, List.length_cons, List.length_nil,
      List.range, List.range.loop, List.flatMap_cons, List.flatMap_nil,
      hcand, List.map_cons, List.map_nil, List.append_nil, List.nil_append,
      List.foldl_cons, List.foldl_nil, hle1, hgt1, hle2, hgt2, hgain]
    norm_num
  have hleafL : leafOf [10] = some (DTree.leaf 10) := by norm_num [leafOf]
  have hleafR : leafOf [20] = some (DTree.leaf 20) := by norm_num [leafOf]
  simp [build_tree, hscan, hle1, hgt1, hleafL, hleafR]

/-! ## C6 (confirmed): leaves store partition means -/

/-- C6. For every tree returned by `SimpleDecisionTree.fit`, every leaf's
stored value is the arithmetic mean of the target values of the training
samples routed to that leaf's partition (`TreeMeansOf` follows the
node thresholds down to every leaf, and each partition is non-empty). -/
theorem tree_fit_leaf_values_are_partition_means (max_depth mss : Nat)
    (X : List (List ℚ)) (y : List ℚ) (t : DTree)
    (h : tree_fit max_depth mss X y = some t) : TreeMeansOf X y t :=
  build_tree_means mss max_depth X y t h

/-- C6 witness: fitting `X = [[1],[2]]`, `y = [10,20]` with depth 1 yields
the split at 1 with leaves 10 and 20 — each the mean of its partition. -/
theorem tree_fit_leaf_values_are_partition_means_witness :
    TreeMeansOf [[1], [2]] [10, 20]
      (DTree.node 0 1 (DTree.leaf 10) (DTree.leaf 20)) :=
  tree_fit_leaf_values_are_partition_means 1 2 [[1], [2]] [10, 20]
    (DTree.node 0 1 (DTree.leaf 10) (DTree.leaf 20))
    (by rw [tree_fit]; exact build_tree_example_eval)

/-! ## C10 (confirmed): predictions bounded by the training targets -/

/-- C10. Every leaf of a tree fitted on targets `y` is the mean of a
non-empty subset of `y`, so every tree prediction lies within any bounds
enclosing `y` (in particular between `min y` and `max y`); and every
`SimpleRandomForest` prediction — the mean of its trees' predictions —
lies within any bounds enclosing all the targets of the trees' bootstrap
samples. -/
theorem tree_and_forest_predictions_bounded :
    (∀ (mss fuel : Nat) (X : List (List ℚ)) (y : List ℚ) (t : DTree) (a b : ℚ),
      build_tree mss fuel X y = some t → (∀ e ∈ y, a ≤ e ∧ e ≤ b) →
        ∀ x, a ≤ traverse_tree x t ∧ traverse_tree x t ≤ b) ∧
    (∀ (trees : List DTree) (a b : ℚ), trees ≠ [] →
      (∀ t ∈ trees, ∃ mss fuel X y,
          build_tree mss fuel X y = some t ∧ ∀ e ∈ y, a ≤ e ∧ e ≤ b) →
      ∀ X p, p ∈ forest_predict trees X → a ≤ p ∧ p ≤ b) := by
  constructor
  · intro mss fuel X y t a b h hb x
    exact build_tree_pred_bounds mss fuel X y t h a b hb x
  · intro trees a b hne htrees X p hp
    simp only [forest_predict, List.map_map, List.mem_map, Function.comp] at hp
    obtain ⟨x, _, rfl⟩ := hp
    have hlne : trees.map (fun t => (tree_predict t [x]).headD 0) ≠ [] := by
      simpa using hne
    refine mean_bounds hlne ?_
    intro e he
    obtain ⟨t, ht, rfl⟩ := List.mem_map.1 he
    have hte : (tree_predict t [x]).headD 0 = traverse_tree x t := by
      simp [tree_predict]
    rw [hte]
    obtain ⟨mss, fuel, X', y', hbt, hby⟩ := htrees t ht
    exact build_tree_pred_bounds mss fuel X' y' t hbt a b hby x

/-- C10 witness: for the fitted example tree, the prediction at `[0]` and
the one-tree forest prediction both lie within the target bounds 10–20. -/
theorem tree_and_forest_predictions_bounded_witness :
    ((10 : ℚ) ≤ traverse_tree [0] (DTree.node 0 1 (DTree.leaf 10) (DTree.leaf 20)) ∧
      traverse_tree [0] (DTree.node 0 1 (DTree.leaf 10) (DTree.leaf 20)) ≤ 20) ∧
    ((10 : ℚ) ≤ 10 ∧ (10 : ℚ) ≤ 20) :=
  ⟨tree_and_forest_predictions_bounded.1 2 1 [[1], [2]] [10, 20]
      (DTree.node 0 1 (DTree.leaf 10) (DTree.leaf 20)) 10 20
      build_tree_example_eval (by norm_num) [0],
   tree_and_forest_predictions_bounded.2
      [DTree.node 0 1 (DTree.leaf 10) (DTree.leaf 20)] 10 20 (by simp)
      (by
        intro t ht
        simp only [List.mem_singleton] at ht
        subst ht
        exact ⟨2, 1, [[1], [2]], [10, 20], build_tree_example_eval, by norm_num⟩)
      [[0]] 10
      (by norm_num [forest_predict, tree_predict, traverse_tree])⟩

end FlightML
